import Mathlib

/-!
Shallow embedding of the EventID regulatory-compliance event system:
the Go consumer entry point (main.go) and the two PostgreSQL schemas
(events database, workspaces database), with theorems checking the
specification's claims against them.
-/

namespace EventID

/-! Environment-driven configuration (src/main.go, loadConfig / getEnv / getEnvInt). -/

/-- The process environment: a partial map from variable names to values.
`none` models an unset variable. -/
def Env : Type := String → Option String

/-- Go's os.Getenv: returns the empty string when the variable is unset. -/
def goGetenv (env : Env) (key : String) : String :=
  (env key).getD ""

/-- getEnv from main.go: the variable's value when non-empty, else the default. -/
def getEnv (env : Env) (key defaultValue : String) : String :=
  let value := goGetenv env key
  if value ≠ "" then value else defaultValue

/-- The value of a non-empty decimal-digit prefix, `none` when there is no digit. -/
def parseDigits (cs : List Char) : Option Nat :=
  let ds := cs.takeWhile (fun c => c.isDigit)
  if ds.isEmpty then none
  else some (ds.foldl (fun a c => 10 * a + (c.toNat - 48)) 0)

/-- fmt.Sscanf with format verb d on a string: skip leading blanks, read an
optionally signed decimal integer prefix; fail when no digits follow. -/
def sscanfDecimal (s : String) : Option Int :=
  match s.data.dropWhile (fun c => c == ' ' || c == '\t') with
  | '-' :: rest => (parseDigits rest).map (fun n => -(n : Int))
  | '+' :: rest => (parseDigits rest).map (fun n => (n : Int))
  | cs          => (parseDigits cs).map (fun n => (n : Int))

/-- getEnvInt from main.go: scan the variable's value as a decimal integer
when it is set and non-empty; on unset, empty or scan failure return the default. -/
def getEnvInt (env : Env) (key : String) (defaultValue : Int) : Int :=
  let value := goGetenv env key
  if value ≠ "" then
    match sscanfDecimal value with
    | some intVal => intVal
    | none => defaultValue
  else defaultValue

/-- The Config struct of main.go. -/
structure Config where
  KafkaBrokers : String
  KafkaTopic   : String
  DBHost       : String
  DBPort       : Int
  DBUser       : String
  DBPassword   : String
  DBName       : String
  DBSSLMode    : String
  MetricsPort  : String
deriving DecidableEq

/-- loadConfig from main.go. -/
def loadConfig (env : Env) : Config :=
  { KafkaBrokers := getEnv env "KAFKA_BROKERS" "localhost:9092"
    KafkaTopic   := getEnv env "KAFKA_TOPIC" "regulatory-events"
    DBHost       := getEnv env "DB_HOST" "localhost"
    DBPort       := getEnvInt env "DB_PORT" 5432
    DBUser       := getEnv env "DB_USER" "eventid"
    DBPassword   := getEnv env "DB_PASSWORD" "password"
    DBName       := getEnv env "DB_NAME" "eventid_events"
    DBSSLMode    := getEnv env "DB_SSLMODE" "disable"
    MetricsPort  := getEnv env "METRICS_PORT" "9090" }

/-- Spec-side reading of a string configuration field: the variable's value
when set and non-empty, otherwise the documented default. -/
def configEnvString (env : Env) (key dflt : String) : String :=
  match env key with
  | none => dflt
  | some v => if v = "" then dflt else v

/-- Spec-side reading of the numeric configuration field: the scanned decimal
value of the variable when set, non-empty and scannable, otherwise the
documented default. -/
def configEnvInt (env : Env) (key : String) (dflt : Int) : Int :=
  match env key with
  | none => dflt
  | some v =>
      if v = "" then dflt
      else
        match sscanfDecimal v with
        | some n => n
        | none => dflt

/-- An environment whose only set variable is a malformed numeric port. -/
def envBadPort : Env :=
  fun k => if k = "DB_PORT" then some "abc" else none

/-! Prometheus counters and the registered event handler (src/main.go). -/

/-- The three process-wide counters of main.go: eventsConsumed, eventsStored,
and the errors counter vector labelled by error kind. -/
structure Metrics where
  eventsConsumed : Nat
  eventsStored   : Nat
  errorsByKind   : String → Nat

/-- WithLabelValues(label).Inc() on a counter vector. -/
def incLabel (m : String → Nat) (label : String) : String → Nat :=
  fun k => if k = label then m k + 1 else m k

/-- The event handler registered in main.go: count the consumption, attempt
storage, and on storage failure count a storage-kind error and return a
wrapped error. `storeErr` is the outcome of store.StoreEvent for this event. -/
def eventHandler (storeErr : Option String) (m : Metrics) : Metrics × Option String :=
  let m1 : Metrics := { m with eventsConsumed := m.eventsConsumed + 1 }
  match storeErr with
  | some e =>
      ({ m1 with errorsByKind := incLabel m1.errorsByKind "storage" },
       some ("failed to store event: " ++ e))
  | none =>
      ({ m1 with eventsStored := m1.eventsStored + 1 }, none)

/-! The health endpoint (src/main.go). -/

/-- An incoming HTTP request, as far as the health handler can observe it. -/
structure HttpRequest where
  method : String
  path   : String
  body   : String

/-- The response written by a handler: status code, Content-Type header, body. -/
structure HttpResponse where
  status      : Nat
  contentType : String
  body        : String
deriving DecidableEq

/-- The health endpoint handler of main.go: ignores the request entirely. -/
def healthHandler (_ : HttpRequest) : HttpResponse :=
  { status := 200
    contentType := "application/json"
    body := "\x7b\"status\":\"healthy\"\x7d" }

/-! Event types and handler registration (src/main.go). -/

/-- Modelled from the spec: the schema package's enumeration of recognized
event types is not under src/; per the spec's closed tagged-variant design
note and the registration list in main.go, the recognized types are exactly
these sixteen. -/
inductive EventType where
  | EventRegulatoryUpdate
  | EventLawFetched
  | EventSpecGenerated
  | EventSpecUpdated
  | EventSpecRequested
  | EventAuditStarted
  | EventAuditCompleted
  | EventViolationFound
  | EventScanRequested
  | EventDocumentUploaded
  | EventComplianceCheck
  | EventGapIdentified
  | EventReviewRequested
  | EventWorkflowStarted
  | EventWorkflowComplete
  | EventValidationStatus
deriving DecidableEq

/-- The eventTypes slice of main.go, in source order. -/
def eventTypes : List EventType :=
  [ .EventRegulatoryUpdate, .EventLawFetched, .EventSpecGenerated,
    .EventSpecUpdated, .EventSpecRequested, .EventAuditStarted,
    .EventAuditCompleted, .EventViolationFound, .EventScanRequested,
    .EventDocumentUploaded, .EventComplianceCheck, .EventGapIdentified,
    .EventReviewRequested, .EventWorkflowStarted, .EventWorkflowComplete,
    .EventValidationStatus ]

/-- The type of registered handlers: the event handler model above. -/
def Handler : Type := Option String → Metrics → Metrics × Option String

/-- The consumer's handler table: which handler, if any, is registered for
each event type. -/
def HandlerMap : Type := EventType → Option Handler

/-- Modelled from the spec: the consumer package's RegisterHandler is not
under src/; per the spec it records the handler for the given event type so
the ingestor dispatches that type to it. -/
def registerHandler (m : HandlerMap) (t : EventType) (h : Handler) : HandlerMap :=
  fun u => if u = t then some h else m u

/-- The registration loop of main.go: register eventHandler for every entry
of eventTypes, starting from an empty table. -/
def registeredHandlers : HandlerMap :=
  eventTypes.foldl (fun m t => registerHandler m t eventHandler) (fun _ => none)

/-! The events database (src/unnamed/part_000): immutable append-only log. -/

/-- A row of the events table. -/
structure EventRow where
  event_id       : String
  event_version  : Int
  event_type     : String
  platform       : String
  timestamp      : Nat
  correlation_id : Option String
  user_id        : Option String
  event_data     : String
  created_at     : Nat
deriving DecidableEq

/-- The error raised by the prevent_event_modification trigger function. -/
def immutableMsg : String :=
  "Events are immutable and cannot be modified or deleted"

/-- An UPDATE statement against the events table. The prevent_event_update
trigger fires BEFORE UPDATE FOR EACH ROW and raises, so as soon as the
statement touches any row the whole statement aborts and the table is left
unchanged; a statement matching no row fires no trigger and changes nothing. -/
def updateEvents (pred : EventRow → Bool) (_f : EventRow → EventRow)
    (tbl : List EventRow) : Except String (List EventRow) :=
  if tbl.any pred then .error immutableMsg else .ok tbl

/-- A DELETE statement against the events table; the prevent_event_delete
trigger raises on every affected row, exactly as for updates. -/
def deleteEvents (pred : EventRow → Bool)
    (tbl : List EventRow) : Except String (List EventRow) :=
  if tbl.any pred then .error immutableMsg else .ok tbl

/-- Modelled from the spec: the storage package implementing
EventStore.StoreEvent is not under src/. Per the spec it inserts the event
into the events table, whose UNIQUE event_id column makes the duplicate
insert a successful no-op: the result is (stored flag, error, table), with
`stored = false` and no error when the event_id already exists. -/
def StoreEvent (e : EventRow) (tbl : List EventRow) :
    Bool × Option String × List EventRow :=
  if tbl.any (fun r => r.event_id == e.event_id) then (false, none, tbl)
  else (true, none, tbl ++ [e])

/-! The workspaces database (src/unnamed/part_002). -/

/-- A row of the workspaces table. -/
structure WorkspaceRow where
  workspace_id : String
  user_id      : String
  name         : String
  frameworks   : String
  jurisdiction : String
  modules      : String
  github_repo  : Option String
  active       : Bool
  settings     : String
deriving DecidableEq

/-- A row of the platform_integrations table. -/
structure PlatformIntegrationRow where
  workspace_id  : String
  platform      : String
  enabled       : Bool
  configuration : String
  last_sync     : Option Nat
deriving DecidableEq

/-- A row of the event_subscriptions table. -/
structure EventSubscriptionRow where
  workspace_id : String
  event_type   : String
  platform     : String
  enabled      : Bool
  filters      : String
deriving DecidableEq

/-- A row of the automation_rules table. -/
structure AutomationRuleRow where
  workspace_id : String
  rule_name    : String
  event_type   : String
  conditions   : String
  actions      : String
  enabled      : Bool
  priority     : Int
deriving DecidableEq

/-- A row of the workflow_history table. Note the DDL gives this table no
rule_name column. -/
structure WorkflowHistoryRow where
  workflow_id      : String
  workspace_id     : Option String
  workflow_type    : String
  trigger_event_id : String
  status           : String
  steps            : String
  result           : Option String
  started_at       : Nat
  completed_at     : Option Nat
  error_message    : Option String
deriving DecidableEq

/-- Unique-violation error, as raised by PostgreSQL for a duplicate key. -/
def dupKeyMsg : String := "duplicate key value violates unique constraint"

/-- Foreign-key violation error, as raised by PostgreSQL. -/
def fkViolationMsg : String := "violates foreign key constraint"

/-- INSERT into platform_integrations: the referenced workspace must exist
(REFERENCES workspaces(workspace_id)) and UNIQUE(workspace_id, platform)
must not be violated; an error aborts the statement and the table stands. -/
def insertPlatformIntegration (ws : List WorkspaceRow)
    (tbl : List PlatformIntegrationRow) (row : PlatformIntegrationRow) :
    Except String (List PlatformIntegrationRow) :=
  if ws.any (fun w => w.workspace_id == row.workspace_id) then
    if tbl.any (fun r =>
        r.workspace_id == row.workspace_id && r.platform == row.platform) then
      .error dupKeyMsg
    else .ok (tbl ++ [row])
  else .error fkViolationMsg

/-- INSERT into event_subscriptions: workspace FK plus
UNIQUE(workspace_id, event_type, platform). -/
def insertEventSubscription (ws : List WorkspaceRow)
    (tbl : List EventSubscriptionRow) (row : EventSubscriptionRow) :
    Except String (List EventSubscriptionRow) :=
  if ws.any (fun w => w.workspace_id == row.workspace_id) then
    if tbl.any (fun r =>
        r.workspace_id == row.workspace_id && r.event_type == row.event_type &&
        r.platform == row.platform) then
      .error dupKeyMsg
    else .ok (tbl ++ [row])
  else .error fkViolationMsg

/-- The nullable workspace foreign key of workflow_history is satisfied. -/
def whForeignKeyOk (ws : List WorkspaceRow) (row : WorkflowHistoryRow) : Bool :=
  match row.workspace_id with
  | none => true
  | some w => ws.any (fun x => x.workspace_id == w)

/-- INSERT into workflow_history: the DDL's only uniqueness constraint is
UNIQUE(workflow_id), plus the nullable workspace foreign key; no constraint
mentions trigger_event_id. -/
def insertWorkflowHistory (ws : List WorkspaceRow)
    (tbl : List WorkflowHistoryRow) (row : WorkflowHistoryRow) :
    Except String (List WorkflowHistoryRow) :=
  if tbl.any (fun r => r.workflow_id == row.workflow_id) then
    .error dupKeyMsg
  else if whForeignKeyOk ws row then
    .ok (tbl ++ [row])
  else .error fkViolationMsg

/-- The whole workspaces database. -/
structure WorkspacesDB where
  workspaces            : List WorkspaceRow
  platform_integrations : List PlatformIntegrationRow
  event_subscriptions   : List EventSubscriptionRow
  automation_rules      : List AutomationRuleRow
  workflow_history      : List WorkflowHistoryRow
deriving DecidableEq

/-- DELETE FROM workspaces WHERE workspace_id = wsId. The three child tables
declared ON DELETE CASCADE lose exactly the children of the deleted row;
workflow_history references workspaces with the default NO ACTION, so a
remaining reference raises a foreign-key error, and the `.error` result
models the statement abort: no table is changed. Matching no row is a no-op. -/
def deleteWorkspace (db : WorkspacesDB) (wsId : String) :
    Except String WorkspacesDB :=
  if db.workspaces.any (fun w => w.workspace_id == wsId) then
    if db.workflow_history.any (fun r => r.workspace_id == some wsId) then
      .error fkViolationMsg
    else
      .ok { workspaces := db.workspaces.filter (fun w => w.workspace_id != wsId)
            platform_integrations :=
              db.platform_integrations.filter (fun r => r.workspace_id != wsId)
            event_subscriptions :=
              db.event_subscriptions.filter (fun r => r.workspace_id != wsId)
            automation_rules :=
              db.automation_rules.filter (fun r => r.workspace_id != wsId)
            workflow_history := db.workflow_history }
  else .ok db

/-- At most one platform_integrations row per (workspace_id, platform). -/
def piAtMostOnePerKey (tbl : List PlatformIntegrationRow) : Prop :=
  ∀ w p, (tbl.countP (fun r => r.workspace_id == w && r.platform == p)) ≤ 1

/-- At most one event_subscriptions row per (workspace_id, event_type, platform). -/
def esAtMostOnePerKey (tbl : List EventSubscriptionRow) : Prop :=
  ∀ w t p, (tbl.countP (fun r =>
    r.workspace_id == w && r.event_type == t && r.platform == p)) ≤ 1

/-! Concrete rows used to exercise the embedding. -/

/-- A workspace row, as in the schema's sample data. -/
def wsHealthcare : WorkspaceRow :=
  { workspace_id := "ws_healthcare_app", user_id := "user_123"
    name := "Healthcare Application", frameworks := "[\"HIPAA\", \"SOC2\"]"
    jurisdiction := "US", modules := "[\"DATABASE\", \"API\"]"
    github_repo := some "yourorg/healthcare-app", active := true
    settings := "\x7b\x7d" }

/-- A first workflow_history row triggered by event ev-1 for the workspace. -/
def wfRun1 : WorkflowHistoryRow :=
  { workflow_id := "wf-1", workspace_id := some "ws_healthcare_app"
    workflow_type := "spec_regeneration", trigger_event_id := "ev-1"
    status := "completed", steps := "[]", result := none
    started_at := 10, completed_at := some 20, error_message := none }

/-- A second workflow_history row with a fresh workflow_id but the same
trigger_event_id and workspace_id as wfRun1. -/
def wfRun2 : WorkflowHistoryRow :=
  { workflow_id := "wf-2", workspace_id := some "ws_healthcare_app"
    workflow_type := "spec_regeneration", trigger_event_id := "ev-1"
    status := "started", steps := "[]", result := none
    started_at := 30, completed_at := none, error_message := none }

/-- A stored event row used to exercise the immutability triggers. -/
def sampleEvent : EventRow :=
  { event_id := "0191-aaaa", event_version := 1
    event_type := "REGULATORY_UPDATE", platform := "scraper"
    timestamp := 100, correlation_id := none, user_id := none
    event_data := "\x7b\x7d", created_at := 100 }

/-- An environment whose only set variable is empty. -/
def envEmptyVar : Env :=
  fun k => if k = "DB_HOST" then some "" else none

/-- A platform integration row for the sample workspace. -/
def piScraper : PlatformIntegrationRow :=
  { workspace_id := "ws_healthcare_app", platform := "scraper"
    enabled := true, configuration := "\x7b\x7d", last_sync := none }

/-- An event subscription row for the sample workspace. -/
def esRegUpdate : EventSubscriptionRow :=
  { workspace_id := "ws_healthcare_app", event_type := "REGULATORY_UPDATE"
    platform := "scraper", enabled := true, filters := "\x7b\x7d" }

/-- An automation rule row for the sample workspace. -/
def arSpecRegen : AutomationRuleRow :=
  { workspace_id := "ws_healthcare_app", rule_name := "regen-spec"
    event_type := "REGULATORY_UPDATE", conditions := "\x7b\x7d"
    actions := "[]", enabled := true, priority := 10 }

/-- A database in which the sample workspace has a workflow_history row. -/
def dbWithHistory : WorkspacesDB :=
  { workspaces := [wsHealthcare]
    platform_integrations := [piScraper]
    event_subscriptions := [esRegUpdate]
    automation_rules := [arSpecRegen]
    workflow_history := [wfRun1] }

/-- The same database with no workflow_history rows. -/
def dbNoHistory : WorkspacesDB :=
  { workspaces := [wsHealthcare]
    platform_integrations := [piScraper]
    event_subscriptions := [esRegUpdate]
    automation_rules := [arSpecRegen]
    workflow_history := [] }

/-! Theorems. -/

/-- C1: for every row stored in the events table, every UPDATE statement and
every DELETE statement touching that row fails with the trigger's
immutability error, and the statement abort leaves the table unchanged:
immutability is enforced by the persistence boundary itself. -/
theorem events_immutable (tbl : List EventRow) (pred : EventRow → Bool)
    (f : EventRow → EventRow) (r : EventRow)
    (hmem : r ∈ tbl) (hpred : pred r = true) :
    updateEvents pred f tbl = .error immutableMsg ∧
    deleteEvents pred tbl = .error immutableMsg := by
  have hany : tbl.any pred = true := List.any_eq_true.mpr ⟨r, hmem, hpred⟩
  constructor
  · simp [updateEvents, hany]
  · simp [deleteEvents, hany]

/-- Witness for C1 at a concrete table and row predicate. -/
theorem events_immutable_witness :
    updateEvents (fun r => r.event_id == "0191-aaaa")
        (fun r => { r with platform := "code" }) [sampleEvent] =
      .error immutableMsg ∧
    deleteEvents (fun r => r.event_id == "0191-aaaa") [sampleEvent] =
      .error immutableMsg :=
  events_immutable [sampleEvent] (fun r => r.event_id == "0191-aaaa")
    (fun r => { r with platform := "code" }) sampleEvent
    (by simp) (by decide)

/-- C4: the startup loop of main.go leaves no recognized event type without a
handler, and the handler registered for each of the sixteen types is the
same storage handler. -/
theorem all_event_types_registered (t : EventType) :
    registeredHandlers t = some eventHandler := by
  cases t <;> rfl

/-- C5: for every envelope processed by the registered handler, the consumed
counter rises by exactly one; on storage success the stored counter rises by
exactly one, no error counter moves, and the handler returns success; on
storage failure the storage-kind error counter rises by exactly one, no
other counter moves, the stored counter is untouched, and the handler
returns the wrapped error. -/
theorem eventHandler_counters (m : Metrics) (e : String) :
    ((eventHandler none m).1.eventsConsumed = m.eventsConsumed + 1) ∧
    ((eventHandler none m).1.eventsStored = m.eventsStored + 1) ∧
    (∀ k, (eventHandler none m).1.errorsByKind k = m.errorsByKind k) ∧
    ((eventHandler none m).2 = none) ∧
    ((eventHandler (some e) m).1.eventsConsumed = m.eventsConsumed + 1) ∧
    ((eventHandler (some e) m).1.eventsStored = m.eventsStored) ∧
    ((eventHandler (some e) m).1.errorsByKind "storage" =
      m.errorsByKind "storage" + 1) ∧
    (∀ k, k ≠ "storage" →
      (eventHandler (some e) m).1.errorsByKind k = m.errorsByKind k) ∧
    ((eventHandler (some e) m).2 = some ("failed to store event: " ++ e)) := by
  refine ⟨rfl, rfl, fun k => rfl, rfl, rfl, rfl, ?_, ?_, rfl⟩
  · simp [eventHandler, incLabel]
  · intro k hk
    simp [eventHandler, incLabel, hk]

/-- Witness for C5 at a concrete metrics state and storage error. -/
theorem eventHandler_counters_witness :
    ((eventHandler (some "boom")
        { eventsConsumed := 3
          eventsStored := 2
          errorsByKind := fun _ => 0 }).1.errorsByKind "storage" = 0 + 1) ∧
    ("timeout" ≠ "storage" →
      (eventHandler (some "boom")
        { eventsConsumed := 3
          eventsStored := 2
          errorsByKind := fun _ => 0 }).1.errorsByKind "timeout" = 0) :=
  ⟨(eventHandler_counters
      { eventsConsumed := 3
        eventsStored := 2
        errorsByKind := fun _ => 0 } "boom").2.2.2.2.2.2.1,
   fun h => (eventHandler_counters
      { eventsConsumed := 3
        eventsStored := 2
        errorsByKind := fun _ => 0 } "boom").2.2.2.2.2.2.2.1 "timeout" h⟩

/-- C6: every request to the health endpoint receives the same fixed
liveness payload: status 200, Content-Type application/json, and the
constant healthy body; the handler reads nothing from the request, the
broker or the database. -/
theorem healthHandler_fixed (req req2 : HttpRequest) :
    healthHandler req =
      { status := 200, contentType := "application/json",
        body := "\x7b\"status\":\"healthy\"\x7d" } ∧
    healthHandler req = healthHandler req2 :=
  ⟨rfl, rfl⟩

/-- Helper: getEnv agrees with the spec-side reading of a string field. -/
theorem getEnv_eq_configEnvString (env : Env) (k d : String) :
    getEnv env k d = configEnvString env k d := by
  cases h : env k with
  | none => simp [getEnv, goGetenv, configEnvString, h]
  | some v =>
      by_cases hv : v = "" <;> simp [getEnv, goGetenv, configEnvString, h, hv]

/-- Helper: getEnvInt agrees with the spec-side reading of the numeric field. -/
theorem getEnvInt_eq_configEnvInt (env : Env) (k : String) (d : Int) :
    getEnvInt env k d = configEnvInt env k d := by
  cases h : env k with
  | none => simp [getEnvInt, goGetenv, configEnvInt, h]
  | some v =>
      by_cases hv : v = ""
      · simp [getEnvInt, goGetenv, configEnvInt, h, hv]
      · cases hp : sscanfDecimal v <;>
          simp [getEnvInt, goGetenv, configEnvInt, h, hv, hp]

/-- C9: environment lookup treats an empty variable as unset — getEnv returns
the default when the variable is unset or empty — and getEnvInt returns the
default when the variable is unset, empty, or its value does not scan as a
decimal integer, so loadConfig (a total function here) never fails on
malformed numeric environment values. -/
theorem env_lookup_defaults (env : Env) (k d : String) (dn : Int) :
    (env k = none → getEnv env k d = d) ∧
    (env k = some "" → getEnv env k d = d) ∧
    (env k = none → getEnvInt env k dn = dn) ∧
    (env k = some "" → getEnvInt env k dn = dn) ∧
    (∀ v, env k = some v → sscanfDecimal v = none → getEnvInt env k dn = dn) := by
  refine ⟨?_, ?_, ?_, ?_, ?_⟩
  · intro h; simp [getEnv, goGetenv, h]
  · intro h; simp [getEnv, goGetenv, h]
  · intro h; simp [getEnvInt, goGetenv, h]
  · intro h; simp [getEnvInt, goGetenv, h]
  · intro v hv hp
    by_cases hv0 : v = ""
    · simp [getEnvInt, goGetenv, hv, hv0]
    · simp [getEnvInt, goGetenv, hv, hv0, hp]

/-- Witness for C9 at concrete environments: unset variable, empty variable,
and a set, non-empty, non-numeric DB_PORT. -/
theorem env_lookup_defaults_witness :
    getEnv envBadPort "KAFKA_TOPIC" "regulatory-events" = "regulatory-events" ∧
    getEnv envEmptyVar "DB_HOST" "localhost" = "localhost" ∧
    getEnvInt envBadPort "DB_PORT" 5432 = 5432 :=
  ⟨(env_lookup_defaults envBadPort "KAFKA_TOPIC" "regulatory-events" 0).1 rfl,
   (env_lookup_defaults envEmptyVar "DB_HOST" "localhost" 0).2.1 rfl,
   (env_lookup_defaults envBadPort "DB_PORT" "" 5432).2.2.2.2 "abc" rfl
     (by decide)⟩

/-- Counterexample to C7 as stated: DB_PORT is set to the non-empty value
"abc", yet loadConfig returns the default 5432 rather than the variable's
value — indeed no integer is the scanned value of "abc". -/
theorem loadConfig_malformed_port_cex :
    envBadPort "DB_PORT" = some "abc" ∧
    "abc" ≠ "" ∧
    (loadConfig envBadPort).DBPort = 5432 ∧
    ¬ ∃ n : Int, sscanfDecimal "abc" = some n ∧
        (loadConfig envBadPort).DBPort = n := by
  refine ⟨rfl, by decide, by decide, ?_⟩
  rintro ⟨n, hn, _⟩
  simp [show sscanfDecimal "abc" = none from by decide] at hn

/-- C7 as amended: every string configuration field is the value of its
environment variable when that is set and non-empty and otherwise its
documented default, while the numeric DB_PORT field is the scanned decimal
value of its variable when that is set, non-empty and scans as a decimal
integer, and otherwise the default 5432. -/
theorem loadConfig_env_spec (env : Env) :
    loadConfig env =
      { KafkaBrokers := configEnvString env "KAFKA_BROKERS" "localhost:9092"
        KafkaTopic   := configEnvString env "KAFKA_TOPIC" "regulatory-events"
        DBHost       := configEnvString env "DB_HOST" "localhost"
        DBPort       := configEnvInt env "DB_PORT" 5432
        DBUser       := configEnvString env "DB_USER" "eventid"
        DBPassword   := configEnvString env "DB_PASSWORD" "password"
        DBName       := configEnvString env "DB_NAME" "eventid_events"
        DBSSLMode    := configEnvString env "DB_SSLMODE" "disable"
        MetricsPort  := configEnvString env "METRICS_PORT" "9090" } := by
  simp [loadConfig, getEnv_eq_configEnvString, getEnvInt_eq_configEnvInt]

/-- C2: storing an event whose event_id is not yet present succeeds with
stored = true and no error, and a second StoreEvent call with the same
event_id is a successful no-op — stored = false, no error, table unchanged —
leaving exactly one row with that event_id. -/
theorem StoreEvent_idempotent (e e2 : EventRow) (tbl : List EventRow)
    (hid : e2.event_id = e.event_id)
    (hfresh : tbl.countP (fun r => r.event_id == e.event_id) = 0) :
    (StoreEvent e tbl).1 = true ∧
    (StoreEvent e tbl).2.1 = none ∧
    (StoreEvent e2 (StoreEvent e tbl).2.2).1 = false ∧
    (StoreEvent e2 (StoreEvent e tbl).2.2).2.1 = none ∧
    (StoreEvent e2 (StoreEvent e tbl).2.2).2.2 = (StoreEvent e tbl).2.2 ∧
    ((StoreEvent e2 (StoreEvent e tbl).2.2).2.2).countP
      (fun r => r.event_id == e.event_id) = 1 := by
  have hall : ∀ r ∈ tbl, ¬ (r.event_id == e.event_id) = true :=
    List.countP_eq_zero.mp hfresh
  have hany : tbl.any (fun r => r.event_id == e.event_id) = false := by
    rw [List.any_eq_false]
    exact hall
  have st1 : StoreEvent e tbl = (true, none, tbl ++ [e]) := by
    simp [StoreEvent, hany]
  have hany2 : (tbl ++ [e]).any (fun r => r.event_id == e2.event_id) = true := by
    simp [hid]
  have st2 : StoreEvent e2 (tbl ++ [e]) = (false, none, tbl ++ [e]) := by
    simp [StoreEvent, hany2]
  refine ⟨by rw [st1], by rw [st1], ?_, ?_, ?_, ?_⟩
  · rw [st1]; rw [st2]
  · rw [st1]; rw [st2]
  · rw [st1]; rw [st2]
  · rw [st1]; rw [st2]
    simp [List.countP_append, hfresh, List.countP_cons]

/-- Witness for C2 at a concrete event and empty table. -/
theorem StoreEvent_idempotent_witness :
    (StoreEvent sampleEvent []).1 = true ∧
    (StoreEvent sampleEvent (StoreEvent sampleEvent []).2.2).1 = false ∧
    (StoreEvent sampleEvent (StoreEvent sampleEvent []).2.2).2.2.countP
      (fun r => r.event_id == sampleEvent.event_id) = 1 :=
  ⟨(StoreEvent_idempotent sampleEvent sampleEvent [] rfl (by decide)).1,
   (StoreEvent_idempotent sampleEvent sampleEvent [] rfl (by decide)).2.2.1,
   (StoreEvent_idempotent sampleEvent sampleEvent [] rfl (by decide)).2.2.2.2.2⟩

/-- Helper: appending one element keeps a count at most one, provided the
list counts zero whenever the new element itself satisfies the predicate. -/
theorem countP_append_singleton_le_one {α : Type} (l : List α) (a : α)
    (q : α → Bool) (h1 : l.countP q ≤ 1) (h0 : q a = true → l.countP q = 0) :
    (l ++ [a]).countP q ≤ 1 := by
  rw [List.countP_append]
  cases hqa : q a with
  | false => simpa [List.countP_cons, hqa] using h1
  | true => simp [List.countP_cons, hqa, h0 hqa]

/-- C8: the registry's uniqueness constraints hold — an insert into
platform_integrations duplicating an existing (workspace_id, platform) key
never succeeds, an insert into event_subscriptions duplicating an existing
(workspace_id, event_type, platform) key never succeeds (the statement
aborts and the table stands), and any successful insert preserves
at-most-one-row-per-key in each table. -/
theorem registry_unique_keys (ws : List WorkspaceRow)
    (piTbl : List PlatformIntegrationRow) (esTbl : List EventSubscriptionRow)
    (pi : PlatformIntegrationRow) (es : EventSubscriptionRow) :
    ((∃ r ∈ piTbl, r.workspace_id = pi.workspace_id ∧
        r.platform = pi.platform) →
      ∀ t', insertPlatformIntegration ws piTbl pi ≠ .ok t') ∧
    (piAtMostOnePerKey piTbl →
      ∀ t', insertPlatformIntegration ws piTbl pi = .ok t' →
        piAtMostOnePerKey t') ∧
    ((∃ r ∈ esTbl, r.workspace_id = es.workspace_id ∧
        r.event_type = es.event_type ∧ r.platform = es.platform) →
      ∀ t', insertEventSubscription ws esTbl es ≠ .ok t') ∧
    (esAtMostOnePerKey esTbl →
      ∀ t', insertEventSubscription ws esTbl es = .ok t' →
        esAtMostOnePerKey t') := by
  refine ⟨?_, ?_, ?_, ?_⟩
  · rintro ⟨r, hr, h1, h2⟩ t' hok
    have hdup : piTbl.any (fun r => r.workspace_id == pi.workspace_id &&
        r.platform == pi.platform) = true :=
      List.any_eq_true.mpr ⟨r, hr, by simp [h1, h2]⟩
    by_cases hfk : ws.any (fun w => w.workspace_id == pi.workspace_id) = true
    · simp [insertPlatformIntegration, hfk, hdup] at hok
    · simp [insertPlatformIntegration, hfk] at hok
  · intro hamo t' hok
    by_cases hfk : ws.any (fun w => w.workspace_id == pi.workspace_id) = true
    · by_cases hdup : piTbl.any (fun r => r.workspace_id == pi.workspace_id &&
          r.platform == pi.platform) = true
      · simp [insertPlatformIntegration, hfk, hdup] at hok
      · have hdup' : piTbl.any (fun r => r.workspace_id == pi.workspace_id &&
            r.platform == pi.platform) = false := by
          simpa using hdup
        have ht' : t' = piTbl ++ [pi] := by
          simp [insertPlatformIntegration, hfk, hdup'] at hok
          exact hok.symm
        subst ht'
        intro w p
        refine countP_append_singleton_le_one _ _ _ (hamo w p) ?_
        intro hq
        rw [List.countP_eq_zero]
        intro r hr hqr
        have hmatch := List.any_eq_false.mp hdup' r hr
        apply hmatch
        simp only [Bool.and_eq_true, beq_iff_eq] at hq hqr ⊢
        exact ⟨hqr.1.trans hq.1.symm, hqr.2.trans hq.2.symm⟩
    · simp [insertPlatformIntegration, hfk] at hok
  · rintro ⟨r, hr, h1, h2, h3⟩ t' hok
    have hdup : esTbl.any (fun r => r.workspace_id == es.workspace_id &&
        r.event_type == es.event_type && r.platform == es.platform) = true :=
      List.any_eq_true.mpr ⟨r, hr, by simp [h1, h2, h3]⟩
    by_cases hfk : ws.any (fun w => w.workspace_id == es.workspace_id) = true
    · simp [insertEventSubscription, hfk, hdup] at hok
    · simp [insertEventSubscription, hfk] at hok
  · intro hamo t' hok
    by_cases hfk : ws.any (fun w => w.workspace_id == es.workspace_id) = true
    · by_cases hdup : esTbl.any (fun r => r.workspace_id == es.workspace_id &&
          r.event_type == es.event_type && r.platform == es.platform) = true
      · simp [insertEventSubscription, hfk, hdup] at hok
      · have hdup' : esTbl.any (fun r => r.workspace_id == es.workspace_id &&
            r.event_type == es.event_type && r.platform == es.platform) =
              false := by
          simpa using hdup
        have ht' : t' = esTbl ++ [es] := by
          simp [insertEventSubscription, hfk, hdup'] at hok
          exact hok.symm
        subst ht'
        intro w t p
        refine countP_append_singleton_le_one _ _ _ (hamo w t p) ?_
        intro hq
        rw [List.countP_eq_zero]
        intro r hr hqr
        have hmatch := List.any_eq_false.mp hdup' r hr
        apply hmatch
        simp only [Bool.and_eq_true, beq_iff_eq] at hq hqr ⊢
        exact ⟨⟨hqr.1.1.trans hq.1.1.symm, hqr.1.2.trans hq.1.2.symm⟩,
          hqr.2.trans hq.2.symm⟩
    · simp [insertEventSubscription, hfk] at hok

/-- Witness for C8: a duplicate-key insert into each registry table is
rejected at a concrete state, and a fresh successful insert preserves the
at-most-one-per-key invariant. -/
theorem registry_unique_keys_witness :
    (insertPlatformIntegration [wsHealthcare] [piScraper]
        { piScraper with enabled := false } ≠ .ok [piScraper]) ∧
    (insertEventSubscription [wsHealthcare] [esRegUpdate]
        { esRegUpdate with enabled := false } ≠ .ok [esRegUpdate]) ∧
    piAtMostOnePerKey [piScraper] ∧
    esAtMostOnePerKey [esRegUpdate] :=
  ⟨(registry_unique_keys [wsHealthcare] [piScraper] [esRegUpdate]
      { piScraper with enabled := false } { esRegUpdate with enabled := false }).1
      ⟨piScraper, by simp, rfl, rfl⟩ [piScraper],
   (registry_unique_keys [wsHealthcare] [piScraper] [esRegUpdate]
      { piScraper with enabled := false } { esRegUpdate with enabled := false }).2.2.1
      ⟨esRegUpdate, by simp, rfl, rfl, rfl⟩ [esRegUpdate],
   (registry_unique_keys [wsHealthcare] [] [] piScraper esRegUpdate).2.1
      (by intro w p; simp) [piScraper] (by rfl),
   (registry_unique_keys [wsHealthcare] [] [] piScraper esRegUpdate).2.2.2
      (by intro w t p; simp) [esRegUpdate] (by rfl)⟩

/-- Counterexample to C3 as stated: the workflow_history table accepts a
second row with the same trigger_event_id and workspace_id (it has no
rule_name column at all), as long as the workflow_id is fresh — so the
at-most-one-run-per-triple property is not enforced by a uniqueness
constraint of the persistence layer. -/
theorem workflow_history_no_triple_constraint_cex :
    insertWorkflowHistory [wsHealthcare] [] wfRun1 = .ok [wfRun1] ∧
    insertWorkflowHistory [wsHealthcare] [wfRun1] wfRun2 =
      .ok [wfRun1, wfRun2] ∧
    wfRun2.trigger_event_id = wfRun1.trigger_event_id ∧
    wfRun2.workspace_id = wfRun1.workspace_id ∧
    wfRun1.workflow_id ≠ wfRun2.workflow_id ∧
    ([wfRun1, wfRun2].countP (fun r => r.trigger_event_id == "ev-1" &&
      r.workspace_id == some "ws_healthcare_app")) = 2 :=
  ⟨rfl, rfl, rfl, rfl, by decide, by decide⟩

/-- C3 as amended: the only uniqueness constraint on workflow_history is on
workflow_id — an insert whose workflow_id already exists never succeeds,
while an insert with a fresh workflow_id and a satisfied workspace foreign
key always succeeds, with no condition on (trigger_event_id, workspace_id,
rule_name); duplicate suppression for redelivered trigger events is
therefore not provided by this table. -/
theorem workflow_history_unique_workflow_id (ws : List WorkspaceRow)
    (tbl : List WorkflowHistoryRow) (row : WorkflowHistoryRow) :
    ((∃ r ∈ tbl, r.workflow_id = row.workflow_id) →
      ∀ t', insertWorkflowHistory ws tbl row ≠ .ok t') ∧
    (tbl.any (fun r => r.workflow_id == row.workflow_id) = false →
      whForeignKeyOk ws row = true →
      insertWorkflowHistory ws tbl row = .ok (tbl ++ [row])) := by
  constructor
  · rintro ⟨r, hr, h1⟩ t' hok
    have hdup : tbl.any (fun r => r.workflow_id == row.workflow_id) = true :=
      List.any_eq_true.mpr ⟨r, hr, by simp [h1]⟩
    simp [insertWorkflowHistory, hdup] at hok
  · intro hfresh hfk
    simp [insertWorkflowHistory, hfresh, hfk]

/-- Witness for C3's amended theorem at concrete rows: re-inserting wfRun1 is
rejected, and wfRun2 — same trigger event and workspace, fresh workflow_id —
is accepted. -/
theorem workflow_history_unique_workflow_id_witness :
    (insertWorkflowHistory [wsHealthcare] [wfRun1] wfRun1 ≠
      .ok [wfRun1, wfRun1]) ∧
    (insertWorkflowHistory [wsHealthcare] [wfRun1] wfRun2 =
      .ok [wfRun1, wfRun2]) :=
  ⟨(workflow_history_unique_workflow_id [wsHealthcare] [wfRun1] wfRun1).1
      ⟨wfRun1, by simp, rfl⟩ [wfRun1, wfRun1],
   (workflow_history_unique_workflow_id [wsHealthcare] [wfRun1] wfRun2).2
      (by decide) (by decide)⟩

/-- C10: deleting a workspace cascades to exactly its platform_integrations,
event_subscriptions and automation_rules rows; but when any workflow_history
row references the workspace, the delete raises a foreign-key error and — the
statement aborting — no row in any table is removed. -/
theorem deleteWorkspace_cascade (db : WorkspacesDB) (wsId : String)
    (hpresent : db.workspaces.any (fun w => w.workspace_id == wsId) = true) :
    (db.workflow_history.any (fun r => r.workspace_id == some wsId) = true →
      deleteWorkspace db wsId = .error fkViolationMsg) ∧
    (db.workflow_history.any (fun r => r.workspace_id == some wsId) = false →
      ∃ db', deleteWorkspace db wsId = .ok db' ∧
        (∀ w, w ∈ db'.workspaces ↔ w ∈ db.workspaces ∧ w.workspace_id ≠ wsId) ∧
        (∀ r, r ∈ db'.platform_integrations ↔
          r ∈ db.platform_integrations ∧ r.workspace_id ≠ wsId) ∧
        (∀ r, r ∈ db'.event_subscriptions ↔
          r ∈ db.event_subscriptions ∧ r.workspace_id ≠ wsId) ∧
        (∀ r, r ∈ db'.automation_rules ↔
          r ∈ db.automation_rules ∧ r.workspace_id ≠ wsId) ∧
        db'.workflow_history = db.workflow_history) := by
  constructor
  · intro href
    simp [deleteWorkspace, hpresent, href]
  · intro href
    refine ⟨{ workspaces := db.workspaces.filter (fun w => w.workspace_id != wsId)
              platform_integrations :=
                db.platform_integrations.filter (fun r => r.workspace_id != wsId)
              event_subscriptions :=
                db.event_subscriptions.filter (fun r => r.workspace_id != wsId)
              automation_rules :=
                db.automation_rules.filter (fun r => r.workspace_id != wsId)
              workflow_history := db.workflow_history },
        by simp [deleteWorkspace, hpresent, href], ?_, ?_, ?_, ?_, rfl⟩
    · intro w
      simp [List.mem_filter, bne_iff_ne]
    · intro r
      simp [List.mem_filter, bne_iff_ne]
    · intro r
      simp [List.mem_filter, bne_iff_ne]
    · intro r
      simp [List.mem_filter, bne_iff_ne]

/-- Witness for C10 at concrete databases: with a workflow_history row the
delete fails; without one it succeeds and the child tables lose exactly the
workspace's rows while workflow_history is untouched. -/
theorem deleteWorkspace_cascade_witness :
    (deleteWorkspace dbWithHistory "ws_healthcare_app" =
      .error fkViolationMsg) ∧
    (∃ db', deleteWorkspace dbNoHistory "ws_healthcare_app" = .ok db' ∧
      (∀ r, r ∈ db'.platform_integrations ↔
        r ∈ dbNoHistory.platform_integrations ∧
          r.workspace_id ≠ "ws_healthcare_app") ∧
      db'.workflow_history = dbNoHistory.workflow_history) :=
  ⟨(deleteWorkspace_cascade dbWithHistory "ws_healthcare_app"
      (by decide)).1 (by decide),
   (by
      obtain ⟨db', hdel, _, hpi, _, _, hwh⟩ :=
        (deleteWorkspace_cascade dbNoHistory "ws_healthcare_app"
          (by decide)).2 (by decide)
      exact ⟨db', hdel, hpi, hwh⟩)⟩

end EventID
